import Mathlib

/-!
Shallow embedding of the `noaa_weather_api` telegraf input plugin
(`plugins/inputs/noaa_weather_api/noaa_weather_api.go`).

Modelling conventions:
* Go `float64` values are embedded as `ℚ`; every decimal literal appearing in
  the source (`9.0/5.0`, `1.609`, `1609.0`) denotes its exact decimal value.
* `time.Duration` / `config.Duration` are nanosecond counts, embedded as `Int`.
* Library calls whose source is outside this repository (`net/url`,
  `time.Parse`, the HTTP transport) are embedded as small models or taken as
  function parameters; each such definition carries a comment saying which Go
  library behaviour it models.
* The `telegraf.Accumulator` sink is embedded as an explicit `Accum` state:
  `AddFields` appends a metric record, `AddError` appends an error.
* The goroutine fan-out in `Gather` is sequentialised in configured-station
  order; no claim here concerns the (unspecified) completion order.
-/

namespace NoaaWeatherApi

/- Constants from the `const` block of noaa_weather_api.go. -/

def defaultStationId : String := "KSUA"

def defaultBaseURL : String := "https://api.weather.gov/"

/-- One second as a `time.Duration` (nanoseconds). -/
def second : Int := 1000000000

/-- `defaultResponseTimeout = time.Second * 5`. -/
def defaultResponseTimeout : Int := 5 * second

/-- `defaultUnits = "imperial"` (line 25 of the source). -/
def defaultUnits : String := "imperial"

/-- The fields of Go's `net/url.URL` that this plugin uses: scheme, host,
path and raw query (the plugin never sets user info, fragment or opaque). -/
structure GoURL where
  scheme : String
  host : String
  path : String
  rawQuery : String
deriving DecidableEq, Repr

/-- The `NOAAWeatherAPI` plugin struct.  The `client` field (an HTTP client)
carries no data relevant to any claim beyond its timeout, which
`createHTTPClient` writes back into `ResponseTimeout`, so it is omitted. -/
structure NOAAWeatherAPI where
  StationID : List String := []
  BaseURL : String := ""
  ResponseTimeout : Int := 0
  Units : String := ""
  UserAgent : String := ""
  baseParsedURL : Option GoURL := none
deriving DecidableEq, Repr

/- URL escaping, modelled from Go net/url.  `escape` works byte-wise in Go;
all strings this plugin escapes are ASCII, where bytes and chars coincide. -/

/-- The escaping modes of net/url used here. -/
inductive Encoding where
  | path
  | pathSegment
  | queryComponent
deriving DecidableEq, Repr

/-- Modelled from Go net/url `shouldEscape` for the three modes above:
alphanumerics and `-_.~` are never escaped; the sub-delims
`$&+,/:;=?@` are kept or escaped per mode; everything else is escaped. -/
def shouldEscape (c : Char) (mode : Encoding) : Bool :=
  if ('a' ≤ c && c ≤ 'z') || ('A' ≤ c && c ≤ 'Z') || ('0' ≤ c && c ≤ '9') then
    false
  else if c = '-' || c = '_' || c = '.' || c = '~' then
    false
  else if c = '$' || c = '&' || c = '+' || c = ',' || c = '/' || c = ':' ||
          c = ';' || c = '=' || c = '?' || c = '@' then
    match mode with
    | .path => c = '?'
    | .pathSegment => c = '/' || c = ';' || c = ',' || c = '?'
    | .queryComponent => true
  else
    true

/-- Upper-case hexadecimal digits, as in net/url's `upperhex`. -/
def upperhex : List Char :=
  ['0', '1', '2', '3', '4', '5', '6', '7', '8', '9', 'A', 'B', 'C', 'D', 'E', 'F']

def hexDigit (n : Nat) : Char := upperhex.getD n '0'

/-- Modelled from Go net/url `escape`: a byte that must be escaped becomes
`%XX` (a space in a query component becomes `+`); others pass through. -/
def escapeChar (mode : Encoding) (c : Char) : List Char :=
  if shouldEscape c mode then
    if c = ' ' && mode = .queryComponent then
      ['+']
    else
      ['%', hexDigit (c.toNat / 16), hexDigit (c.toNat % 16)]
  else
    [c]

def escape (s : String) (mode : Encoding) : String :=
  String.mk ((s.data.map (escapeChar mode)).flatten)

/-- Go `url.PathEscape`. -/
def pathEscape (s : String) : String := escape s .pathSegment

/-- Go `url.QueryEscape`. -/
def queryEscape (s : String) : String := escape s .queryComponent

/-- Modelled from Go net/url `Values.Encode`, with values given as an
association list.  Go sorts the keys first; `formatURL` passes a single key,
so the given key order is kept here. -/
def valuesEncode (v : List (String × List String)) : String :=
  String.intercalate "&"
    ((v.map (fun kv => kv.2.map (fun val => queryEscape kv.1 ++ "=" ++ queryEscape val))).flatten)

/-- Modelled from Go net/url `URL.ResolveReference`, restricted to the case
`formatURL` produces: the reference has no scheme and no host and an absolute
path, so the result keeps the base's scheme and host and takes the reference's
path and raw query. -/
def resolveReference (base ref : GoURL) : GoURL :=
  { scheme := base.scheme
    host := base.host
    path := ref.path
    rawQuery := ref.rawQuery }

/-- Modelled from Go net/url `URL.String` for a URL with a scheme and a host
and no user info, opaque part or fragment: scheme, `"://"`, host, the escaped
path, then `?` and the raw query when the query is nonempty. -/
def urlString (u : GoURL) : String :=
  u.scheme ++ "://" ++ u.host ++ escape u.path .path ++
    (if u.rawQuery = "" then "" else "?" ++ u.rawQuery)

/-- `fmt.Sprintf` for a format string whose only verb is a single `%s`,
which is the only way the plugin calls it. -/
def sprintf1List : List Char → String → List Char
  | [], _ => []
  | '%' :: 's' :: rest, arg => arg.data ++ rest
  | c :: rest, arg => c :: sprintf1List rest arg

def sprintf1 (format arg : String) : String :=
  String.mk (sprintf1List format.data arg)

/-- `formatURL` (lines 236-248): builds the relative URL from the path
template with the path-escaped station id and the fixed query
`require_qc=false`, and resolves it against the parsed base URL.  In Go a nil
`baseParsedURL` would panic; it is only called after `Init`, so the `none`
case is modelled as the empty string. -/
def formatURL (n : NOAAWeatherAPI) (path : String) (station_id : String) : String :=
  let v : List (String × List String) := [("require_qc", ["false"])]
  let relative : GoURL :=
    { scheme := ""
      host := ""
      path := sprintf1 path (pathEscape station_id)
      rawQuery := valuesEncode v }
  match n.baseParsedURL with
  | some base => urlString (resolveReference base relative)
  | none => ""

/-- The timeout floor applied by `createHTTPClient` (lines 92-103): a
configured timeout below one second is replaced by the five-second default;
the client is then built with the resulting timeout. -/
def createHTTPClientTimeout (t : Int) : Int :=
  if t < second then defaultResponseTimeout else t

/-- `Init` (lines 216-234).  `url.Parse` lives outside this repository, so it
is passed in as `parseURL`; `Init` fails when it fails.  Then the HTTP client
is created (its timeout floor recorded in `ResponseTimeout`), and the unit
system is validated: `"imperial"` and `"metric"` are kept, the empty string
becomes `defaultUnits`, and anything else is a fatal error. -/
def Init (parseURL : String → Option GoURL) (n : NOAAWeatherAPI) :
    Except String NOAAWeatherAPI :=
  match parseURL n.BaseURL with
  | none => .error "url parse error"
  | some u =>
    let n1 : NOAAWeatherAPI :=
      { n with
        baseParsedURL := some u
        ResponseTimeout := createHTTPClientTimeout n.ResponseTimeout }
    match n1.Units with
    | "imperial" => .ok n1
    | "metric" => .ok n1
    | "" => .ok { n1 with Units := defaultUnits }
    | other => .error ("unknown units: " ++ other)

/-- `ApiValue` (lines 131-135): one unit-tagged reading. -/
structure ApiValue where
  UnitCode : String
  Value : ℚ
  QualityControl : String
deriving DecidableEq, Repr

/-- `Status` (lines 137-146): one decoded observation. -/
structure Status where
  Temperature : ApiValue
  Humidity : ApiValue
  BarometricPressure : ApiValue
  Visibility : ApiValue
  WindSpeed : ApiValue
  WindDirection : ApiValue
  Dewpoint : ApiValue
  Timestamp : String
deriving DecidableEq, Repr

/-- `UnitConversion` (lines 157-181): exact match on the unit code; each
recognised code converts only when `Units == "imperial"`; every other code
passes the value through. -/
def UnitConversion (n : NOAAWeatherAPI) (value : ApiValue) : ℚ :=
  match value.UnitCode with
  | "wmoUnit:degC" =>
    if n.Units = "imperial" then value.Value * 9.0 / 5.0 + 32 else value.Value
  | "wmoUnit:km_h-1" =>
    if n.Units = "imperial" then value.Value / 1.609 else value.Value
  | "wmoUnit:m" =>
    if n.Units = "imperial" then value.Value / 1609.0 else value.Value
  | _ => value.Value

/-- One emitted metric record: the arguments of one `acc.AddFields` call.
The field map is kept in the source's literal order. -/
structure Metric where
  name : String
  fields : List (String × ℚ)
  tags : List (String × String)
  tm : Int
deriving DecidableEq, Repr

/-- The `telegraf.Accumulator` sink state: metrics added by `AddFields` and
errors added by `AddError`, each in call order. -/
structure Accum where
  metrics : List Metric := []
  errors : List String := []
deriving DecidableEq, Repr

def Accum.addFields (acc : Accum) (name : String) (fields : List (String × ℚ))
    (tags : List (String × String)) (tm : Int) : Accum :=
  { acc with metrics := acc.metrics ++ [{ name := name, fields := fields, tags := tags, tm := tm }] }

def Accum.addError (acc : Accum) (e : String) : Accum :=
  { acc with errors := acc.errors ++ [e] }

/-- The `fields` map built by `GatherWeather` (lines 184-192). -/
def weatherFields (n : NOAAWeatherAPI) (status : Status) : List (String × ℚ) :=
  [("pressure", status.BarometricPressure.Value),
   ("dewpoint", status.Dewpoint.Value),
   ("temperature", UnitConversion n status.Temperature),
   ("humidity", status.Humidity.Value),
   ("visibility", UnitConversion n status.Visibility),
   ("wind_degrees", status.WindDirection.Value),
   ("wind_speed", UnitConversion n status.WindSpeed)]

/-- `GatherWeather` (lines 183-204).  `time.Parse` with the fixed RFC 3339
layout lives outside this repository and is passed in as `timeParse`.  When
parsing fails the source evaluates `fmt.Errorf` and discards the result: no
`AddError`, no `AddFields`.  When it succeeds, one `AddFields` call is made
with measurement name `"noaa_weather"`, the field map, the tag map
`station = "KSUA"` (a literal in the source), and the parsed time. -/
def GatherWeather (n : NOAAWeatherAPI) (timeParse : String → Option Int)
    (acc : Accum) (status : Status) : Accum :=
  let fields := weatherFields n status
  let tags : List (String × String) := [("station", "KSUA")]
  match timeParse status.Timestamp with
  | none => acc
  | some tm => acc.addFields "noaa_weather" fields tags tm

/-- The outcome of `gatherURL` for one station: either a fetch-pipeline error
(request failure, non-200 status, bad or wrong content type, decode failure)
or a decoded `Status`.  The network is outside the repository, so the outcome
per request URL is a parameter. -/
inductive FetchOutcome where
  | fetchError (msg : String)
  | success (status : Status)
deriving DecidableEq, Repr

/-- The body of one goroutine of `Gather` (lines 74-85): fetch the station's
URL; on error call `AddError` and emit nothing, on success run
`GatherWeather`. -/
def gatherStep (n : NOAAWeatherAPI) (fetch : String → FetchOutcome)
    (timeParse : String → Option Int) (acc : Accum) (station : String) : Accum :=
  let addr := formatURL n "/stations/%s/observations/latest" station
  match fetch addr with
  | .fetchError e => acc.addError e
  | .success st => GatherWeather n timeParse acc st

/-- `Gather` (lines 70-90): one goroutine per configured station, all joined
before returning; the goroutines are sequentialised here in configured order.
The Go function always returns `nil`, modelled as the `none` error
component. -/
def Gather (n : NOAAWeatherAPI) (fetch : String → FetchOutcome)
    (timeParse : String → Option Int) (acc : Accum) : Accum × Option String :=
  (n.StationID.foldl (gatherStep n fetch timeParse) acc, none)

/-- The metric contributed by a single station, as a function of that
station's own fetch outcome alone: `none` on fetch error or timestamp-parse
failure, otherwise the one record `GatherWeather` adds. -/
def stationMetric (n : NOAAWeatherAPI) (fetch : String → FetchOutcome)
    (timeParse : String → Option Int) (station : String) : Option Metric :=
  match fetch (formatURL n "/stations/%s/observations/latest" station) with
  | .fetchError _ => none
  | .success st =>
    (timeParse st.Timestamp).map fun tm =>
      { name := "noaa_weather"
        fields := weatherFields n st
        tags := [("station", "KSUA")]
        tm := tm }

/-- The error contributed by a single station, as a function of that
station's own fetch outcome alone. -/
def stationError (n : NOAAWeatherAPI) (fetch : String → FetchOutcome)
    (station : String) : Option String :=
  match fetch (formatURL n "/stations/%s/observations/latest" station) with
  | .fetchError e => some e
  | .success _ => none

/- Concrete fixtures, taken from the repository's test data. -/

/-- Go `url.Parse` applied to `"http://foo.com"` yields scheme `http`, host
`foo.com`, empty path and query; modelled as a parse function defined at that
input. -/
def parseURLFoo : String → Option GoURL := fun s =>
  if s = "http://foo.com" then
    some { scheme := "http", host := "foo.com", path := "", rawQuery := "" }
  else none

/-- The observation carried by the test fixture `sampleStatusResponse`, as
decoded into `Status`. -/
def sampleStatus : Status :=
  { Temperature := { UnitCode := "wmoUnit:degC", Value := 21, QualityControl := "V" }
    Humidity := { UnitCode := "wmoUnit:percent", Value := 52.802638324228, QualityControl := "V" }
    BarometricPressure := { UnitCode := "wmoUnit:Pa", Value := 101520, QualityControl := "V" }
    Visibility := { UnitCode := "wmoUnit:m", Value := 16090, QualityControl := "C" }
    WindSpeed := { UnitCode := "wmoUnit:km_h-1", Value := 22.32, QualityControl := "V" }
    WindDirection := { UnitCode := "wmoUnit:degree_(angle)", Value := 340, QualityControl := "V" }
    Dewpoint := { UnitCode := "wmoUnit:degC", Value := 11, QualityControl := "V" }
    Timestamp := "2021-11-07T18:50:00+00:00" }

/-- A plugin value configured for the imperial unit system. -/
def nImperial : NOAAWeatherAPI := { Units := "imperial" }

/-- A plugin value configured for the metric unit system. -/
def nMetric : NOAAWeatherAPI := { Units := "metric" }

/-- A configuration whose first (and only) station is not `"KSUA"`, with the
base URL already parsed as `Init` would leave it. -/
def cfgWXYZ : NOAAWeatherAPI :=
  { StationID := ["WXYZ"]
    BaseURL := "http://foo.com"
    Units := "metric"
    baseParsedURL := some { scheme := "http", host := "foo.com", path := "", rawQuery := "" } }

/-- A fetch environment in which every request succeeds with the given
observation. -/
def fetchAlways (st : Status) : String → FetchOutcome := fun _ => .success st

/-- `time.Parse` of the sample timestamp yields epoch second 1636311000 (the
time asserted by the test data); modelled as a parse function defined at that
input. -/
def parseSample : String → Option Int := fun s =>
  if s = "2021-11-07T18:50:00+00:00" then some 1636311000 else none

/-- A timestamp-parse environment in which parsing always fails. -/
def parseFail : String → Option Int := fun _ => none

/-- A configuration with an empty unit-system string and a parsable base
URL. -/
def cfgEmptyUnits : NOAAWeatherAPI := { StationID := ["KSUA"], BaseURL := "http://foo.com" }

/-- The configuration of the repository's `TestFormatURL`. -/
def cfgFoo : NOAAWeatherAPI := { BaseURL := "http://foo.com", Units := "metric" }

/-- The metric record produced for `cfgWXYZ` from the sample observation. -/
def sampleMetricWXYZ : Metric :=
  { name := "noaa_weather"
    fields := weatherFields cfgWXYZ sampleStatus
    tags := [("station", "KSUA")]
    tm := 1636311000 }

/- Helper lemmas shared by the theorems below. -/

/-- One `Gather` goroutine appends exactly its own station's metric
contribution and error contribution to the accumulator. -/
theorem gatherStep_spec (n : NOAAWeatherAPI) (fetch : String → FetchOutcome)
    (timeParse : String → Option Int) (acc : Accum) (s : String) :
    (gatherStep n fetch timeParse acc s).metrics
        = acc.metrics ++ (stationMetric n fetch timeParse s).toList ∧
    (gatherStep n fetch timeParse acc s).errors
        = acc.errors ++ (stationError n fetch s).toList := by
  unfold gatherStep stationMetric stationError
  cases h : fetch (formatURL n "/stations/%s/observations/latest" s) with
  | fetchError e => simp [h, Accum.addError]
  | success st =>
    unfold GatherWeather
    cases hp : timeParse st.Timestamp with
    | none => simp [h, hp]
    | some tm => simp [h, hp, Accum.addFields]

/-- The station loop of `Gather` appends the per-station metric and error
contributions of the visited stations, each a function of that station's own
fetch outcome only. -/
theorem gatherLoop_spec (n : NOAAWeatherAPI) (fetch : String → FetchOutcome)
    (timeParse : String → Option Int) :
    ∀ (stations : List String) (acc : Accum),
      (stations.foldl (gatherStep n fetch timeParse) acc).metrics
          = acc.metrics ++ stations.filterMap (stationMetric n fetch timeParse) ∧
      (stations.foldl (gatherStep n fetch timeParse) acc).errors
          = acc.errors ++ stations.filterMap (stationError n fetch) := by
  intro stations
  induction stations with
  | nil => intro acc; simp
  | cons s rest ih =>
    intro acc
    have hstep := gatherStep_spec n fetch timeParse acc s
    have hrest := ih (gatherStep n fetch timeParse acc s)
    refine ⟨?_, ?_⟩
    · rw [List.foldl_cons, hrest.1, hstep.1]
      cases h : stationMetric n fetch timeParse s <;>
        simp [List.filterMap_cons, h]
    · rw [List.foldl_cons, hrest.2, hstep.2]
      cases h : stationError n fetch s <;>
        simp [List.filterMap_cons, h]

/-- Any metric a single station contributes carries the literal tag list
`[("station", "KSUA")]`. -/
theorem stationMetric_tags (n : NOAAWeatherAPI) (fetch : String → FetchOutcome)
    (timeParse : String → Option Int) (s : String) (m : Metric)
    (h : stationMetric n fetch timeParse s = some m) :
    m.tags = [("station", "KSUA")] := by
  unfold stationMetric at h
  split at h
  · exact absurd h (by simp)
  · rcases Option.map_eq_some'.mp h with ⟨tm, _, hrec⟩
    rw [← hrec]

/- Claim theorems. -/

/-- C1: the claim (and the repository's own `TestDefaultUnits`) says an empty
unit-system string resolves to `"metric"`; on the code, `Init` on a
configuration with empty `Units` and a parsable base URL succeeds but, since
`defaultUnits = "imperial"`, leaves `Units = "imperial"`, not `"metric"`. -/
theorem init_empty_units_yields_imperial :
    (Init parseURLFoo cfgEmptyUnits).toOption.map NOAAWeatherAPI.Units = some "imperial" ∧
    (Init parseURLFoo cfgEmptyUnits).toOption.map NOAAWeatherAPI.Units ≠ some "metric" := by
  decide

/-- C2 (counterexample): with the configured station list `["WXYZ"]` and a
successfully parsed observation, the single emitted metric's tag list is
`[("station", "KSUA")]`, and `"KSUA"` is not the first configured
identifier `"WXYZ"`. -/
theorem station_tag_not_first_configured :
    (Gather cfgWXYZ (fetchAlways sampleStatus) parseSample {}).1.metrics.map Metric.tags
        = [[("station", "KSUA")]] ∧
    cfgWXYZ.StationID.headD "" = "WXYZ" ∧
    ("KSUA" : String) ≠ "WXYZ" := by
  decide

/-- C2 (amended): every metric the gather operation emits carries the tag
list `[("station", "KSUA")]` — the string literal hard-coded in
`GatherWeather` — regardless of the configured station list. -/
theorem station_tag_is_literal_ksua (n : NOAAWeatherAPI) (fetch : String → FetchOutcome)
    (timeParse : String → Option Int) (m : Metric)
    (h : m ∈ (Gather n fetch timeParse {}).1.metrics) :
    m.tags = [("station", "KSUA")] := by
  unfold Gather at h
  rw [(gatherLoop_spec n fetch timeParse n.StationID {}).1] at h
  simp only [List.nil_append] at h
  rcases List.mem_filterMap.mp h with ⟨s, _, hm⟩
  exact stationMetric_tags n fetch timeParse s m hm

/-- Witness for the amended C2 theorem at the `cfgWXYZ` fixture. -/
theorem station_tag_is_literal_ksua_witness :
    sampleMetricWXYZ.tags = [("station", "KSUA")] :=
  station_tag_is_literal_ksua cfgWXYZ (fetchAlways sampleStatus) parseSample
    sampleMetricWXYZ
    (by rw [show (Gather cfgWXYZ (fetchAlways sampleStatus) parseSample {}).1.metrics
              = [sampleMetricWXYZ] from rfl]
        exact List.mem_singleton.mpr rfl)

/-- C3 (counterexample): the converter matches unit codes exactly against
`"wmoUnit:degC"`, so on the literal unit code `"degC"` it falls through to
the identity branch: the imperial result of value 21 is 21, not 69.8. -/
theorem convert_degc_literal_passthrough :
    UnitConversion nImperial { UnitCode := "degC", Value := 21, QualityControl := "V" } = 21 ∧
    UnitConversion nImperial { UnitCode := "degC", Value := 21, QualityControl := "V" } ≠ 69.8 := by
  have h : UnitConversion nImperial { UnitCode := "degC", Value := 21, QualityControl := "V" } = 21 := rfl
  refine ⟨h, ?_⟩
  rw [h]
  norm_num

/-- C3 (amended): with the Celsius unit code as it appears on the wire,
`"wmoUnit:degC"`, value 21 converts to 69.8 under the imperial system and
stays 21 under the metric system. -/
theorem convert_wmo_degc :
    UnitConversion nImperial { UnitCode := "wmoUnit:degC", Value := 21, QualityControl := "V" } = 69.8 ∧
    UnitConversion nMetric { UnitCode := "wmoUnit:degC", Value := 21, QualityControl := "V" } = 21 := by
  have h : UnitConversion nImperial { UnitCode := "wmoUnit:degC", Value := 21, QualityControl := "V" }
      = 21 * 9.0 / 5.0 + 32 := rfl
  refine ⟨?_, rfl⟩
  rw [h]
  norm_num

/-- C4: the claim (and the repository's own tests) says the measurement name
is `"weather"`; the code's `AddFields` call passes the literal
`"noaa_weather"`: evaluating `GatherWeather` on the sample observation emits
one metric named `"noaa_weather"`, which is not `"weather"`. -/
theorem measurement_name_is_noaa_weather :
    (GatherWeather nMetric parseSample {} sampleStatus).metrics.map Metric.name
        = ["noaa_weather"] ∧
    ("noaa_weather" : String) ≠ "weather" := by
  decide

/-- C5: for every configuration and every combination of per-station fetch
outcomes, `Gather` itself returns no error, and the emitted metrics and the
reported errors are exactly the per-station contributions — each a function
of that station's own outcome alone, so one station's `FetchError` is
recorded via `AddError` without preventing any other station's metric. -/
theorem gather_total_and_independent (n : NOAAWeatherAPI) (fetch : String → FetchOutcome)
    (timeParse : String → Option Int) (acc : Accum) :
    (Gather n fetch timeParse acc).2 = none ∧
    (Gather n fetch timeParse acc).1.metrics
        = acc.metrics ++ n.StationID.filterMap (stationMetric n fetch timeParse) ∧
    (Gather n fetch timeParse acc).1.errors
        = acc.errors ++ n.StationID.filterMap (stationError n fetch) :=
  ⟨rfl, (gatherLoop_spec n fetch timeParse n.StationID acc).1,
    (gatherLoop_spec n fetch timeParse n.StationID acc).2⟩

/-- C6: when the observation's timestamp string fails to parse,
`GatherWeather` leaves the accumulator unchanged (no `AddFields`, no
`AddError`); when it parses to time `tm`, exactly one metric is appended,
carrying `tm`, and no error is added. -/
theorem timestamp_parse_gate (n : NOAAWeatherAPI) (timeParse : String → Option Int)
    (acc : Accum) (st : Status) :
    (timeParse st.Timestamp = none → GatherWeather n timeParse acc st = acc) ∧
    ∀ tm, timeParse st.Timestamp = some tm →
      (GatherWeather n timeParse acc st).metrics
          = acc.metrics ++ [{ name := "noaa_weather", fields := weatherFields n st,
                              tags := [("station", "KSUA")], tm := tm }] ∧
      (GatherWeather n timeParse acc st).errors = acc.errors := by
  constructor
  · intro h
    simp [GatherWeather, h]
  · intro tm h
    simp [GatherWeather, h, Accum.addFields]

/-- Witness for the C6 theorem: a failing parse leaves the empty accumulator
empty; the sample parse emits exactly one metric at epoch 1636311000. -/
theorem timestamp_parse_gate_witness :
    GatherWeather nMetric parseFail {} sampleStatus = {} ∧
    (GatherWeather nMetric parseSample {} sampleStatus).metrics
        = [{ name := "noaa_weather", fields := weatherFields nMetric sampleStatus,
             tags := [("station", "KSUA")], tm := 1636311000 }] :=
  ⟨(timestamp_parse_gate nMetric parseFail {} sampleStatus).1 (by decide),
   (((timestamp_parse_gate nMetric parseSample {} sampleStatus).2 1636311000 (by decide)).1.trans
     (by simp))⟩

/-- C7: every unit code other than the three the converter matches
(`"wmoUnit:degC"`, `"wmoUnit:km_h-1"`, `"wmoUnit:m"`) passes its value
through unchanged, under every configured unit system, metric and imperial
included. -/
theorem unrecognized_unit_code_identity (n : NOAAWeatherAPI) (v : ApiValue)
    (h1 : v.UnitCode ≠ "wmoUnit:degC") (h2 : v.UnitCode ≠ "wmoUnit:km_h-1")
    (h3 : v.UnitCode ≠ "wmoUnit:m") :
    UnitConversion n v = v.Value := by
  unfold UnitConversion
  split <;> simp_all

/-- Witness for the C7 theorem: the pressure code `"wmoUnit:Pa"` passes
101520 through unchanged under the imperial system. -/
theorem unrecognized_unit_code_identity_witness :
    UnitConversion nImperial { UnitCode := "wmoUnit:Pa", Value := 101520, QualityControl := "V" }
        = 101520 :=
  unrecognized_unit_code_identity nImperial
    { UnitCode := "wmoUnit:Pa", Value := 101520, QualityControl := "V" }
    (by decide) (by decide) (by decide)

/-- C8: `formatURL` path-escapes the station id and appends
`require_qc=false`: after `Init` on base URL `http://foo.com`, the URL built
for station `KSUA` is exactly
`http://foo.com/stations/KSUA/observations/latest?require_qc=false`. -/
theorem format_url_foo_ksua :
    (Init parseURLFoo cfgFoo).toOption.map
        (fun n => formatURL n "/stations/%s/observations/latest" "KSUA")
      = some "http://foo.com/stations/KSUA/observations/latest?require_qc=false" := by
  decide

/-- C9: the converter performs no validation of the unit-system string: for
every configuration whose `Units` is anything other than `"imperial"`, it
returns the input value unchanged for every unit code. -/
theorem non_imperial_units_identity (n : NOAAWeatherAPI) (h : n.Units ≠ "imperial")
    (v : ApiValue) :
    UnitConversion n v = v.Value := by
  unfold UnitConversion
  split <;> simp_all

/-- Witness for the C9 theorem: under the invalid unit-system string
`"bogus"`, the Celsius code passes 21 through unchanged. -/
theorem non_imperial_units_identity_witness :
    UnitConversion { nMetric with Units := "bogus" }
        { UnitCode := "wmoUnit:degC", Value := 21, QualityControl := "V" } = 21 :=
  non_imperial_units_identity { nMetric with Units := "bogus" } (by decide)
    { UnitCode := "wmoUnit:degC", Value := 21, QualityControl := "V" }

/-- C10: the converter's output depends only on the unit code and the value,
never on the quality-control field: two readings agreeing on `UnitCode` and
`Value` convert identically under every configuration. -/
theorem conversion_ignores_quality_control (n : NOAAWeatherAPI) (v w : ApiValue)
    (hu : v.UnitCode = w.UnitCode) (hv : v.Value = w.Value) :
    UnitConversion n v = UnitConversion n w := by
  unfold UnitConversion
  rw [hu, hv]

/-- Witness for the C10 theorem: quality-control codes `"V"` and `"Z"` give
the same imperial Celsius conversion. -/
theorem conversion_ignores_quality_control_witness :
    UnitConversion nImperial { UnitCode := "wmoUnit:degC", Value := 11, QualityControl := "V" }
        = UnitConversion nImperial { UnitCode := "wmoUnit:degC", Value := 11, QualityControl := "Z" } :=
  conversion_ignores_quality_control nImperial
    { UnitCode := "wmoUnit:degC", Value := 11, QualityControl := "V" }
    { UnitCode := "wmoUnit:degC", Value := 11, QualityControl := "Z" }
    rfl rfl

end NoaaWeatherApi
